import Mathlib

/-!
Verification of the HalfTruths bias-detection pipeline (shallow embedding).

Each definition in this file is translated from one function of the Python
source; the doc comment of each definition names that function.  External
library calls (the JSON parser `json.loads`, the LLM provider calls, the MD5
digest) are modelled as explicit oracle parameters: the surrounding control
flow is taken verbatim from the source, and the theorems quantify over the
oracle so they hold for every behaviour of the external call.

Python strings are modelled as `String` (a list of characters); the Python
string operations used by the source (`strip`, `startswith`, slicing,
`find`/`rfind`, `split`, `replace`) are given explicit executable
definitions over the character list, matching Python's character-indexed
semantics (whitespace is modelled as ASCII whitespace).
-/

namespace HalfTruths

/-- Python `s.strip()` on a character list: remove leading and trailing
whitespace. -/
def pyStripChars (cs : List Char) : List Char :=
  ((cs.dropWhile Char.isWhitespace).reverse.dropWhile Char.isWhitespace).reverse

/-- Python `s.strip()`. -/
def pyStrip (s : String) : String :=
  String.mk (pyStripChars s.toList)

/-- Python `s.startswith(p)`. -/
def pyStartsWith (s p : String) : Bool :=
  p.toList.isPrefixOf s.toList

/-- Python `s.endswith(p)`. -/
def pyEndsWith (s p : String) : Bool :=
  p.toList.isSuffixOf s.toList

/-- Python `s[n:]`: drop the first `n` characters. -/
def pyDrop (s : String) (n : Nat) : String :=
  String.mk (s.toList.drop n)

/-- Python `s[:-n]` (for `n ≤ len(s)`): drop the last `n` characters. -/
def pyDropRight (s : String) (n : Nat) : String :=
  String.mk (s.toList.take (s.toList.length - n))

/-- Python `len(s)`: number of characters. -/
def pyLen (s : String) : Nat :=
  s.toList.length

/-- Python `s.find(c)`: index (in characters) of the first occurrence of the
character `c` in `s`, `none` when absent (Python returns -1). -/
def pyFind (s : String) (c : Char) : Option Nat :=
  s.toList.indexOf? c

/-- Python `s.rfind(c)`: index of the last occurrence of the character `c`
in `s`, `none` when absent. -/
def pyRfind (s : String) (c : Char) : Option Nat :=
  match s.toList.reverse.indexOf? c with
  | none => none
  | some i => some (s.toList.length - 1 - i)

/-- Python `s[a:b]` for `0 ≤ a`, `0 ≤ b`: characters from index `a`
(inclusive) to `b` (exclusive); empty when `b ≤ a`. -/
def pySlice (s : String) (a b : Nat) : String :=
  String.mk ((s.toList.take b).drop a)

/-- JSON values, as produced by `json.loads`.  Numbers are modelled as
integers (the scores in this system are integers 0..100); an object's fields
are an association list in document order. -/
inductive JVal where
  | num (n : Int)
  | str (s : String)
  | bool (b : Bool)
  | null
  | arr (elems : List JVal)
  | obj (fields : List (String × JVal))

/-- A parsed JSON object: the field list of a top-level JSON object.  The
slice handed to `json.loads` in `_extract_json` always begins with `{`, so a
successful parse is always an object. -/
abbrev JObj := List (String × JVal)

/-- Function `BiasDetector._get_fallback_response` (detector.py:164-173): the fixed
fallback analysis object. -/
def get_fallback_response : JObj :=
  [("emotional_bias_score", .num 50),
   ("framing_bias_score", .num 50),
   ("omission_bias_score", .num 50),
   ("overall_bias_score", .num 50),
   ("biased_phrases", .arr []),
   ("summary", .str "Bias analysis unavailable - using fallback response")]

/-- The text-cleaning and slicing steps of `BiasDetector._extract_json`
(detector.py:124-145): strip whitespace, strip Markdown code fences, then
slice from the first `{` to the last `}`.  Returns `none` exactly when the
source hits its `start == -1 or end == 0` fallback (no `{` or no `}`). -/
def sliceJson (text : String) : Option String :=
  let c0 := pyStrip text
  let c1 := if pyStartsWith c0 "```json" then pyDrop c0 7 else c0
  let c2 := if pyStartsWith c1 "```" then pyDrop c1 3 else c1
  let c3 := if pyEndsWith c2 "```" then pyDropRight c2 3 else c2
  let cleaned := pyStrip c3
  match pyFind cleaned '\x7b', pyRfind cleaned '\x7d' with
  | some s, some e => some (pySlice cleaned s (e + 1))
  | _, _ => none

/-- The required-field check of `BiasDetector._extract_json`
(detector.py:149-150): all of the three mandatory score fields occur as keys
of the parsed object. -/
def requiredFieldsPresent (o : JObj) : Bool :=
  ["emotional_bias_score", "framing_bias_score", "overall_bias_score"].all
    (fun f => o.any (fun kv => kv.1 == f))

/-- Function `BiasDetector._extract_json` (detector.py:119-162).  `parse` is the
oracle for `json.loads` on the sliced text: `some o` when it returns the
object `o`, `none` when it raises (`JSONDecodeError` or any other exception,
both caught by the source and turned into the fallback). -/
def extract_json (parse : String → Option JObj) (text : String) : JObj :=
  if text = "" then get_fallback_response
  else
    match sliceJson text with
    | none => get_fallback_response
    | some jsonStr =>
      match parse jsonStr with
      | none => get_fallback_response
      | some result =>
        if requiredFieldsPresent result then result else get_fallback_response

/-- The entry guard and provider dispatch of `BiasDetector.detect_biases`
(detector.py:13-31).  The first component records whether the LLM provider
was invoked; `provider` is the oracle for the provider call (`some t` = the
raw response text, `none` = the call raised, or returned no content, both of
which the source turns into the fallback). -/
def detect_biases (parse : String → Option JObj) (provider : Option String)
    (article_text : String) : Bool × JObj :=
  if article_text = "" ∨ pyLen (pyStrip article_text) < 10 then
    (false, get_fallback_response)
  else
    match provider with
    | none => (true, get_fallback_response)
    | some t => (true, extract_json parse t)

/-- Python `title.strip().replace('"', '')` (rewriter.py:146). -/
def cleanTitle (t : String) : String :=
  String.mk ((pyStripChars t.toList).filter (fun c => c != '"'))

/-- Function `ArticleRewriter.rewrite_title_neutral` (rewriter.py:91-151).
`overall_bias_score` is the value of
`bias_analysis.get('overall_bias_score', 0)`; `provider` is the oracle for
the provider call (`some t` = the returned headline text, `none` = the call
raised, which the source catches and answers with the original title).  The
first component records whether the provider was invoked.  The source's
final `else: return original_title` branch (unknown provider type) is
unreachable because `ModelFactory.get_model` only yields the three handled
provider types. -/
def rewrite_title_neutral (provider : Option String) (original_title : String)
    (overall_bias_score : Int) : Bool × String :=
  if overall_bias_score < 20 then (false, original_title)
  else
    match provider with
    | none => (true, original_title)
    | some t =>
      let clean_title := cleanTitle t
      if 10 < pyLen clean_title ∧ pyLen clean_title < 120 then (true, clean_title)
      else (true, original_title)

/-- The title-rewrite step of `BiasAnalysisOrchestrator.analyze_article`
(orchestrator.py:22-24): `rewrite_title_neutral` is called only when the
original title is non-empty (Python truthiness) and the overall bias score
exceeds 20; otherwise the original title passes through with no provider
call. -/
def orchestrator_title_step (provider : Option String) (original_title : String)
    (overall_bias_score : Int) : Bool × String :=
  if original_title ≠ "" ∧ overall_bias_score > 20 then
    rewrite_title_neutral provider original_title overall_bias_score
  else (false, original_title)

/-- Python `len(s.split())`: the number of maximal runs of non-whitespace
characters.  `inWord` records whether the previous character was part of a
word. -/
def countWordRuns : List Char → Bool → Nat
  | [], _ => 0
  | c :: cs, inWord =>
    if c.isWhitespace then countWordRuns cs false
    else (if inWord then 0 else 1) + countWordRuns cs true

/-- Python `len(s.split())`. -/
def pyWordCount (s : String) : Nat :=
  countWordRuns s.toList false

/-- Function `BiasAnalysisOrchestrator._assess_rewrite_quality` (orchestrator.py:60-70).
The source compares `abs(original_words - rewritten_words) >
original_words * 0.5` in floating point; both sides are exact halves of
integers well below 2^52, so this is equivalent to the integer comparison
`2 * |original_words - rewritten_words| > original_words` used here. -/
def assess_rewrite_quality (original rewritten : String) : String :=
  if original = rewritten then "no_change"
  else
    let original_words := pyWordCount original
    let rewritten_words := pyWordCount rewritten
    if 2 * ((original_words : Int) - (rewritten_words : Int)).natAbs > original_words then
      "significant_change"
    else "moderate_change"

/-- One slot of the output of `analyze_multiple_articles`: either the value
produced by that article's pipeline, or the error record
`{"error": str(result)}` built from the exception it raised. -/
inductive BatchResult (β : Type u) where
  | ok (r : β)
  | failed (msg : String)

/-- The post-gather loop of `analyze_multiple_articles`
(orchestrator.py:51-56): a pipeline value passes through, a captured
exception becomes the error record built from its string form. -/
def toBatchResult (x : Except String β) : BatchResult β :=
  match x with
  | .ok r => .ok r
  | .error e => .failed e

/-- Function `BiasAnalysisOrchestrator.analyze_multiple_articles`
(orchestrator.py:39-58).  `pipeline` is the oracle for one article's
`analyze_article` run: `.ok r` when it completes with result `r`, `.error m`
when it raises an exception whose string form is `m`.  `asyncio.gather`
with `return_exceptions=True` returns, in task-submission order, each task's
value or its captured exception; the loop then replaces each captured
exception with an error record. -/
def analyze_multiple_articles (pipeline : α → Except String β)
    (articles : List α) : List (BatchResult β) :=
  articles.map fun a => toBatchResult (pipeline a)

/-- An incoming article record, with the fields read by `add_news`
(news_db.py:77-82). -/
structure Article where
  title : String
  source : String
  date : String
  url : String
  body : String
  category : String

/-- One row of the `data_news` table (news_db.py:19-33).  `created_at` is
the insertion timestamp; it is modelled by a strictly increasing counter, so
`ORDER BY created_at DESC` is the reverse of insertion order. -/
structure Row where
  id : Nat
  title : String
  source : String
  date : String
  url : String
  body : String
  category : String
  bias : Option String
  rewritten_article : Option String
  content_hash : String
  created_at : Nat
deriving DecidableEq

/-- The `data_news` table state: rows in insertion order, plus the
id/timestamp counter. -/
structure NewsDB where
  rows : List Row
  clock : Nat

/-- Function `_generate_content_hash` (news_db.py:42-45): a digest of the
concatenation of title and body.  `md5` is the oracle for `hashlib.md5`,
an arbitrary (deterministic) function of that concatenation. -/
def generate_content_hash (md5 : String → String) (article : Article) : String :=
  md5 (article.title ++ article.body)

/-- The duplicate check of `add_news` (news_db.py:65-70): does a row with
this content hash already exist? -/
def hashExists (db : NewsDB) (h : String) : Bool :=
  db.rows.any (fun r => r.content_hash == h)

/-- The INSERT of `add_news` (news_db.py:72-86): append a row with the
article's fields, NULL `bias` and `rewritten_article`, and the content
hash. -/
def insertRow (db : NewsDB) (a : Article) (h : String) : NewsDB :=
  { rows := db.rows ++
      [{ id := db.clock, title := a.title, source := a.source, date := a.date,
         url := a.url, body := a.body, category := a.category, bias := none,
         rewritten_article := none, content_hash := h, created_at := db.clock }],
    clock := db.clock + 1 }

/-- Function `add_news` (news_db.py:48-100): for each article in order, compute the
content hash; skip the article if a row with that hash exists (counting it
as a duplicate), otherwise insert it and count it as newly added.  Returns
the updated table and the number of articles actually added. -/
def add_news (md5 : String → String) (db : NewsDB) : List Article → NewsDB × Nat
  | [] => (db, 0)
  | a :: rest =>
    let h := generate_content_hash md5 a
    if hashExists db h then add_news md5 db rest
    else
      let step := add_news md5 (insertRow db a h) rest
      (step.1, step.2 + 1)

/-- The row-selection query of `prepare_data_for_llm` (news_db.py:114-129):
`ORDER BY created_at DESC` (= reverse of insertion order, since
`created_at` strictly increases with insertion), filtered by
`WHERE bias IS NULL` when `processed_only` is true, then `LIMIT limit`. -/
def select_rows_for_llm (db : NewsDB) (limit : Nat) (processed_only : Bool) : List Row :=
  let ordered := db.rows.reverse
  let chosen := if processed_only then ordered.filter (fun r => r.bias.isNone) else ordered
  chosen.take limit

/-- Function `prepare_data_for_llm` (news_db.py:103-139): the selected rows projected
to `{"title": ..., "body": ...}` records. -/
def prepare_data_for_llm (db : NewsDB) (limit : Nat) (processed_only : Bool) :
    List (String × String) :=
  (select_rows_for_llm db limit processed_only).map (fun r => (r.title, r.body))

/-- One record of the `llm_data` argument of `add_bias`, with the three keys
the source reads (news_db.py:153). -/
structure BiasResult where
  title : String
  bias : String
  rewritten_article : String

/-- The UPDATE of `add_bias` (news_db.py:149-153) applied to one stored row:
set `bias` and `rewritten_article` when the row's title equals the result's
title, leave the row unchanged otherwise. -/
def updateRowWith (res : BiasResult) (r : Row) : Row :=
  if r.title == res.title then
    { r with bias := some res.bias, rewritten_article := some res.rewritten_article }
  else r

/-- Function `add_bias` (news_db.py:142-160): run the title-keyed UPDATE once per
result record, in list order, over the whole table. -/
def add_bias (db : NewsDB) (llm_data : List BiasResult) : NewsDB :=
  { db with rows := llm_data.foldl (fun rows res => rows.map (updateRowWith res)) db.rows }

/-- The provider selection produced by `ModelFactory.get_model`: the backend
identity and the model name chosen for it (the client object is determined
by these).  -/
structure ProviderHandle where
  provider : String
  modelName : String
deriving DecidableEq

/-- The process environment seen by `ModelFactory.get_model`: for each
backend, the outcome of its credential lookup and liveness probing
(`get_groq_client`, `get_gemini_model`, `get_claude_client`): `.ok h` when
the backend yields a working handle `h`, `.error m` when it raises. -/
structure ProviderEnv where
  groq : Except String ProviderHandle
  gemini : Except String ProviderHandle
  claude : Except String ProviderHandle

/-- Function `ModelFactory.get_model` (model_factory.py:38-62): try Groq, then
Gemini, then Claude, returning the first backend that succeeds; raise
`RuntimeError("No AI models available")` when all three fail. -/
def get_model (env : ProviderEnv) : Except String ProviderHandle :=
  match env.groq with
  | .ok h => .ok h
  | .error _ =>
    match env.gemini with
    | .ok h => .ok h
    | .error _ =>
      match env.claude with
      | .ok h => .ok h
      | .error _ => .error "No AI models available"

/-- The constructor body shared by `BiasDetector.__init__`,
`ArticleRewriter.__init__` and `BiasExplainer.__init__` (detector.py:10-11,
rewriter.py:9-10, explainer.py:8-9): each agent calls
`ModelFactory.get_model()` itself and stores the result.  `selections`
counts the `get_model` invocations made so far during construction. -/
def agentInit (env : ProviderEnv) (selections : Nat) :
    Except String (ProviderHandle × Nat) :=
  match get_model env with
  | .ok h => .ok (h, selections + 1)
  | .error e => .error e

/-- The provider handles held by the three pipeline stages after
`BiasAnalysisOrchestrator.__init__`, together with the number of
`ModelFactory.get_model` invocations performed to obtain them. -/
structure OrchestratorAgents where
  detectorHandle : ProviderHandle
  rewriterHandle : ProviderHandle
  explainerHandle : ProviderHandle
  selections : Nat

/-- Function `BiasAnalysisOrchestrator.__init__` (orchestrator.py:11-15): construct
the detector, the rewriter and the explainer in order, each of which runs
its own `ModelFactory.get_model()` selection. -/
def orchestrator_init (env : ProviderEnv) : Except String OrchestratorAgents :=
  match agentInit env 0 with
  | .error e => .error e
  | .ok (d, n1) =>
    match agentInit env n1 with
    | .error e => .error e
    | .ok (r, n2) =>
      match agentInit env n2 with
      | .error e => .error e
      | .ok (ex, n3) => .ok ⟨d, r, ex, n3⟩

/-- A JSON document that contains exactly the three mandatory score fields
and none of the optional ones. -/
def mandatoryOnlyText : String :=
  "\x7b\"emotional_bias_score\": 40, \"framing_bias_score\": 30, \"overall_bias_score\": 35\x7d"

/-- The object `json.loads` produces on `mandatoryOnlyText`. -/
def mandatoryOnlyObj : JObj :=
  [("emotional_bias_score", .num 40),
   ("framing_bias_score", .num 30),
   ("overall_bias_score", .num 35)]

/-- The behaviour of `json.loads` at the single document `mandatoryOnlyText`
(its value elsewhere is irrelevant to the statements using it). -/
def mandatoryOnlyParse : String → Option JObj :=
  fun s => if s = mandatoryOnlyText then some mandatoryOnlyObj else none

/-- The cumulative effect of `add_bias`'s sequential UPDATEs on one stored
row: fold `updateRowWith` over the result list. -/
def applyUpdates (llm_data : List BiasResult) (r : Row) : Row :=
  llm_data.foldl (fun r res => updateRowWith res r) r

/-- Equality of all columns of a row except `bias` and
`rewritten_article`. -/
def sameFrame (r s : Row) : Prop :=
  r.id = s.id ∧ r.title = s.title ∧ r.source = s.source ∧ r.date = s.date ∧
  r.url = s.url ∧ r.body = s.body ∧ r.category = s.category ∧
  r.content_hash = s.content_hash ∧ r.created_at = s.created_at

end HalfTruths

namespace HalfTruths

example : sliceJson "```json\n\x7b\"a\": 1\x7d\n```" = some "\x7b\"a\": 1\x7d" := by decide

example : sliceJson "no braces here" = none := by decide

example : extract_json (fun _ => none) "\x7b\x7d" = get_fallback_response := rfl

example :
    extract_json (fun _ => some [("overall_bias_score", .num 10)]) "\x7b\x7d"
      = get_fallback_response := rfl

example : pyWordCount "  one two  three " = 3 := by decide

example : assess_rewrite_quality "a b c d" "a" = "significant_change" := by decide

example : assess_rewrite_quality "a b c d" "a b" = "moderate_change" := by decide

example : cleanTitle "  \"A Headline\"  " = "A Headline" := by decide

/-- C1: for every behaviour of the JSON parser and every raw text,
`_extract_json` is total and returns either the successfully parsed object
(when the slice parses and all three mandatory score fields are present) or
exactly the fallback marker; in particular a parse failure on the sliced
text, a missing mandatory field, or the absence of a JSON object slice each
yield exactly the fallback marker. -/
theorem c1_extract_json_total_contract (parse : String → Option JObj) (text : String) :
    (extract_json parse text = get_fallback_response ∨
      ∃ jsonStr result, sliceJson text = some jsonStr ∧ parse jsonStr = some result ∧
        requiredFieldsPresent result = true ∧ extract_json parse text = result) ∧
    (∀ jsonStr, sliceJson text = some jsonStr → parse jsonStr = none →
      extract_json parse text = get_fallback_response) ∧
    (∀ jsonStr result, sliceJson text = some jsonStr → parse jsonStr = some result →
      requiredFieldsPresent result = false →
      extract_json parse text = get_fallback_response) ∧
    (sliceJson text = none → extract_json parse text = get_fallback_response) := by
  refine ⟨?_, ?_, ?_, ?_⟩
  · by_cases htext : text = ""
    · exact Or.inl (by simp [extract_json, htext])
    · cases hs : sliceJson text with
      | none => exact Or.inl (by simp [extract_json, htext, hs])
      | some jsonStr =>
        cases hp : parse jsonStr with
        | none => exact Or.inl (by simp [extract_json, htext, hs, hp])
        | some result =>
          by_cases hreq : requiredFieldsPresent result = true
          · exact Or.inr ⟨jsonStr, result, rfl, hp, hreq,
              by simp [extract_json, htext, hs, hp, hreq]⟩
          · exact Or.inl (by simp [extract_json, htext, hs, hp, hreq])
  · intro jsonStr hs hp
    by_cases htext : text = "" <;> simp [extract_json, htext, hs, hp]
  · intro jsonStr result hs hp hreq
    by_cases htext : text = "" <;> simp [extract_json, htext, hs, hp, hreq]
  · intro hs
    by_cases htext : text = "" <;> simp [extract_json, htext, hs]

set_option maxHeartbeats 1600000 in
/-- Witness for C1: each fallback-producing branch exercised at a concrete
input (parse failure, missing mandatory field, no JSON object found). -/
theorem c1_extract_json_total_contract_witness :
    extract_json (fun _ => none) "\x7bbad\x7d" = get_fallback_response ∧
    extract_json (fun _ => some [("emotional_bias_score", JVal.num 1)]) "\x7bx\x7d"
      = get_fallback_response ∧
    extract_json (fun _ => none) "plain prose" = get_fallback_response :=
  ⟨(c1_extract_json_total_contract (fun _ => none) "\x7bbad\x7d").2.1
      "\x7bbad\x7d" (by decide) rfl,
   (c1_extract_json_total_contract (fun _ => some [("emotional_bias_score", JVal.num 1)])
      "\x7bx\x7d").2.2.1 "\x7bx\x7d" [("emotional_bias_score", JVal.num 1)]
      (by decide) rfl (by decide),
   (c1_extract_json_total_contract (fun _ => none) "plain prose").2.2.2 (by decide)⟩

set_option maxHeartbeats 1600000 in
/-- C6 counterexample: on a document holding exactly the three mandatory
score fields, `_extract_json` returns the parsed object as-is — no
`omission_bias_score`, `biased_phrases` or `summary` field is added — so the
claim that missing optional fields are defaulted to their zero/empty forms
fails at this input. -/
theorem c6_counterexample :
    extract_json mandatoryOnlyParse mandatoryOnlyText = mandatoryOnlyObj ∧
    mandatoryOnlyObj.any (fun kv => kv.1 == "omission_bias_score") = false ∧
    mandatoryOnlyObj.any (fun kv => kv.1 == "biased_phrases") = false ∧
    mandatoryOnlyObj.any (fun kv => kv.1 == "summary") = false :=
  ⟨rfl, by decide, by decide, by decide⟩

/-- C6 amended: when the extracted JSON slice parses successfully and the
three mandatory score fields are present, the normalizer returns the parsed
object verbatim; missing optional fields are left absent (the pipeline
defaults them at each read site via dictionary lookups with defaults), and no
failure occurs. -/
theorem c6_parsed_object_returned_verbatim (parse : String → Option JObj)
    (text jsonStr : String) (result : JObj)
    (hs : sliceJson text = some jsonStr) (hp : parse jsonStr = some result)
    (hreq : requiredFieldsPresent result = true) :
    extract_json parse text = result := by
  by_cases htext : text = ""
  · subst htext
    rw [show sliceJson "" = none from rfl] at hs
    exact Option.noConfusion hs
  · simp [extract_json, htext, hs, hp, hreq]

set_option maxHeartbeats 1600000 in
/-- Witness for C6's amended statement at the concrete mandatory-fields-only
document. -/
theorem c6_parsed_object_returned_verbatim_witness :
    extract_json mandatoryOnlyParse mandatoryOnlyText = mandatoryOnlyObj :=
  c6_parsed_object_returned_verbatim mandatoryOnlyParse mandatoryOnlyText
    mandatoryOnlyText mandatoryOnlyObj rfl rfl (by decide)

/-- C10: an article text that is empty or whose whitespace-stripped length
is below 10 characters makes `detect_biases` return exactly the fallback
response without invoking the provider. -/
theorem c10_short_input_guard (parse : String → Option JObj)
    (provider : Option String) (article_text : String)
    (h : article_text = "" ∨ pyLen (pyStrip article_text) < 10) :
    detect_biases parse provider article_text = (false, get_fallback_response) := by
  simp only [detect_biases, if_pos h]

/-- Witness for C10 at a 5-character article text. -/
theorem c10_short_input_guard_witness :
    detect_biases (fun _ => none) (some "a provider response") "short"
      = (false, get_fallback_response) :=
  c10_short_input_guard _ _ _ (Or.inr (by decide))

/-- C5: `_assess_rewrite_quality` returns "no_change" exactly on verbatim
equality; otherwise "significant_change" exactly when the absolute
word-count delta exceeds half the original word count, and
"moderate_change" in all remaining cases. -/
theorem c5_rewrite_quality_classification (original rewritten : String) :
    (original = rewritten →
      assess_rewrite_quality original rewritten = "no_change") ∧
    (original ≠ rewritten →
      (assess_rewrite_quality original rewritten = "significant_change" ↔
        2 * ((pyWordCount original : Int) - (pyWordCount rewritten : Int)).natAbs >
          pyWordCount original)) ∧
    (original ≠ rewritten →
      ¬(2 * ((pyWordCount original : Int) - (pyWordCount rewritten : Int)).natAbs >
          pyWordCount original) →
      assess_rewrite_quality original rewritten = "moderate_change") := by
  refine ⟨fun h => by simp [assess_rewrite_quality, h], fun h => ?_, fun h hc => ?_⟩
  · simp only [assess_rewrite_quality, if_neg h]
    by_cases hc : 2 * ((pyWordCount original : Int) - (pyWordCount rewritten : Int)).natAbs >
        pyWordCount original
    · rw [if_pos hc]
      exact iff_of_true rfl hc
    · rw [if_neg hc]
      exact iff_of_false (by decide) hc
  · simp only [assess_rewrite_quality, if_neg h, if_neg hc]

/-- Witness for C5: a 4-word original against a 1-word rewrite (75% delta)
classifies as significant, against a 2-word rewrite (50% delta, not above
the threshold) as moderate, and verbatim equality as no change. -/
theorem c5_rewrite_quality_classification_witness :
    assess_rewrite_quality "a b c d" "a" = "significant_change" ∧
    assess_rewrite_quality "a b c d" "a b" = "moderate_change" ∧
    assess_rewrite_quality "same text" "same text" = "no_change" :=
  ⟨((c5_rewrite_quality_classification "a b c d" "a").2.1 (by decide)).mpr (by decide),
   (c5_rewrite_quality_classification "a b c d" "a b").2.2 (by decide) (by decide),
   (c5_rewrite_quality_classification "same text" "same text").1 rfl⟩

/-- C4 counterexample: with a provider response available, an analysis with
overall score 75 (> 20) but an empty original title makes the title-rewrite
step return the original (empty) title with no provider invocation,
contradicting the claim that every analysis scoring above 20 leads to a
provider invocation. -/
theorem c4_counterexample :
    orchestrator_title_step (some "A Fine Neutral Headline") "" 75 = (false, "") ∧
    (75 : Int) > 20 :=
  ⟨rfl, by decide⟩

/-- C4 amended: for a score of at most 20, or an empty original title, the
title-rewrite step returns the original title with no provider invocation;
for a nonempty title and a score above 20 it invokes the provider and
returns the cleaned provider title exactly when that title's length is
strictly between 10 and 120 characters, the original title otherwise (also
the original title when the provider call fails). -/
theorem c4_title_rewrite_gating (provider : Option String)
    (original_title : String) (overall_bias_score : Int) :
    (overall_bias_score ≤ 20 →
      orchestrator_title_step provider original_title overall_bias_score =
        (false, original_title)) ∧
    (original_title = "" →
      orchestrator_title_step provider original_title overall_bias_score =
        (false, original_title)) ∧
    (original_title ≠ "" → overall_bias_score > 20 → provider = none →
      orchestrator_title_step provider original_title overall_bias_score =
        (true, original_title)) ∧
    (∀ t, original_title ≠ "" → overall_bias_score > 20 → provider = some t →
      orchestrator_title_step provider original_title overall_bias_score =
        (true, if 10 < pyLen (cleanTitle t) ∧ pyLen (cleanTitle t) < 120
               then cleanTitle t else original_title)) := by
  refine ⟨fun h => ?_, fun h => ?_, fun h1 h2 hp => ?_, fun t h1 h2 hp => ?_⟩
  · unfold orchestrator_title_step
    exact if_neg (fun hcond => absurd hcond.2 (by omega))
  · unfold orchestrator_title_step
    exact if_neg (fun hcond => hcond.1 h)
  · subst hp
    unfold orchestrator_title_step
    rw [if_pos ⟨h1, h2⟩]
    unfold rewrite_title_neutral
    rw [if_neg (by omega)]
  · subst hp
    unfold orchestrator_title_step
    rw [if_pos ⟨h1, h2⟩]
    unfold rewrite_title_neutral
    rw [if_neg (by omega)]
    by_cases hr : 10 < pyLen (cleanTitle t) ∧ pyLen (cleanTitle t) < 120
    · simp only [if_pos hr]
    · simp only [if_neg hr]

/-- Witness for C4's amended statement: a valid-length cleaned title is
adopted; a low score or a failed provider call keeps the original. -/
theorem c4_title_rewrite_gating_witness :
    orchestrator_title_step (some " \"Officials Announce Updated Budget Plan\" ")
        "Old Title" 75 = (true, "Officials Announce Updated Budget Plan") ∧
    orchestrator_title_step (some "Whatever Response") "Old Title" 15 =
      (false, "Old Title") ∧
    orchestrator_title_step none "Old Title" 75 = (true, "Old Title") :=
  ⟨((c4_title_rewrite_gating (some " \"Officials Announce Updated Budget Plan\" ")
      "Old Title" 75).2.2.2 " \"Officials Announce Updated Budget Plan\" "
      (by decide) (by decide) rfl).trans (by decide),
   (c4_title_rewrite_gating (some "Whatever Response") "Old Title" 15).1 (by decide),
   (c4_title_rewrite_gating none "Old Title" 75).2.2.1 (by decide) (by decide) rfl⟩

/-- C2: the batch runner returns one slot per input article, in input order;
slot `i` holds the error record of article `i`'s pipeline exception when it
raised, and the pipeline's own value otherwise — each slot depends only on
its own article's run. -/
theorem c2_batch_preserves_order_and_isolates_failures {α β : Type}
    (pipeline : α → Except String β) (articles : List α) :
    (analyze_multiple_articles pipeline articles).length = articles.length ∧
    ∀ i : Nat,
      (analyze_multiple_articles pipeline articles)[i]? =
        (articles[i]?).map (fun a => toBatchResult (pipeline a)) := by
  refine ⟨List.length_map _ _, fun i => ?_⟩
  simp [analyze_multiple_articles, List.getElem?_map]

/-- C8 counterexample: in an environment where provider selection succeeds,
constructing the orchestrator performs three `ModelFactory.get_model`
selections — one per stage constructor — not exactly one. -/
theorem c8_counterexample :
    orchestrator_init ⟨.ok ⟨"groq", "llama-3.1-8b-instant"⟩, .error "skipped",
        .error "skipped"⟩ =
      .ok ⟨⟨"groq", "llama-3.1-8b-instant"⟩, ⟨"groq", "llama-3.1-8b-instant"⟩,
           ⟨"groq", "llama-3.1-8b-instant"⟩, 3⟩ ∧
    (3 : Nat) ≠ 1 :=
  ⟨rfl, by decide⟩

/-- C8 amended: each of the three pipeline stages performs its own
`ModelFactory.get_model` selection during orchestrator construction (three
selections in total, all before per-article fan-out); the selection is
deterministic in the environment, so all three stages hold equal handles. -/
theorem c8_selection_per_stage (env : ProviderEnv) (h : ProviderHandle)
    (hsel : get_model env = .ok h) :
    orchestrator_init env = .ok ⟨h, h, h, 3⟩ := by
  simp [orchestrator_init, agentInit, hsel]

/-- Witness for C8's amended statement: a Gemini-only environment yields the
Gemini handle in all three stages after three selections. -/
theorem c8_selection_per_stage_witness :
    orchestrator_init ⟨.error "no groq key",
        .ok ⟨"gemini", "models/gemini-2.0-flash"⟩, .error "no claude key"⟩ =
      .ok ⟨⟨"gemini", "models/gemini-2.0-flash"⟩, ⟨"gemini", "models/gemini-2.0-flash"⟩,
           ⟨"gemini", "models/gemini-2.0-flash"⟩, 3⟩ :=
  c8_selection_per_stage _ _ rfl

lemma updateRowWith_sameFrame (res : BiasResult) (r : Row) :
    sameFrame (updateRowWith res r) r := by
  unfold updateRowWith
  split <;> simp [sameFrame]

lemma sameFrame_refl (r : Row) : sameFrame r r := by
  simp [sameFrame]

lemma sameFrame_trans {a b c : Row} (h1 : sameFrame a b) (h2 : sameFrame b c) :
    sameFrame a c := by
  obtain ⟨a1, a2, a3, a4, a5, a6, a7, a8, a9⟩ := h1
  obtain ⟨b1, b2, b3, b4, b5, b6, b7, b8, b9⟩ := h2
  exact ⟨a1.trans b1, a2.trans b2, a3.trans b3, a4.trans b4, a5.trans b5,
    a6.trans b6, a7.trans b7, a8.trans b8, a9.trans b9⟩

lemma applyUpdates_sameFrame (llm_data : List BiasResult) :
    ∀ r : Row, sameFrame (applyUpdates llm_data r) r := by
  induction llm_data with
  | nil => intro r; exact sameFrame_refl r
  | cons res rest ih =>
    intro r
    exact sameFrame_trans (ih (updateRowWith res r)) (updateRowWith_sameFrame res r)

lemma updateRowWith_title (res : BiasResult) (r : Row) :
    (updateRowWith res r).title = r.title :=
  (updateRowWith_sameFrame res r).2.1

lemma updateRowWith_of_ne (res : BiasResult) (r : Row) (h : r.title ≠ res.title) :
    updateRowWith res r = r := by
  simp [updateRowWith, h]

lemma applyUpdates_not_matched (llm_data : List BiasResult) :
    ∀ r : Row, r.title ∉ llm_data.map (fun d => d.title) →
      applyUpdates llm_data r = r := by
  induction llm_data with
  | nil => intro r _; rfl
  | cons res rest ih =>
    intro r h
    rw [List.map_cons, List.mem_cons] at h
    push_neg at h
    show applyUpdates rest (updateRowWith res r) = r
    rw [updateRowWith_of_ne res r h.1]
    exact ih r h.2

lemma applyUpdates_congr (llm_data : List BiasResult) :
    ∀ r s : Row, r.title = s.title → r.bias = s.bias →
      r.rewritten_article = s.rewritten_article →
      (applyUpdates llm_data r).bias = (applyUpdates llm_data s).bias ∧
      (applyUpdates llm_data r).rewritten_article =
        (applyUpdates llm_data s).rewritten_article := by
  induction llm_data with
  | nil => intro r s _ hb hw; exact ⟨hb, hw⟩
  | cons res rest ih =>
    intro r s ht hb hw
    show (applyUpdates rest (updateRowWith res r)).bias = _ ∧ _
    refine ih (updateRowWith res r) (updateRowWith res s) ?_ ?_ ?_
    · rw [updateRowWith_title, updateRowWith_title, ht]
    · by_cases hc : r.title = res.title
      · simp [updateRowWith, hc, ht.symm.trans hc]
      · have hcs : ¬ s.title = res.title := fun hx => hc (ht.trans hx)
        simp [updateRowWith, hc, hcs, hb]
    · by_cases hc : r.title = res.title
      · simp [updateRowWith, hc, ht.symm.trans hc]
      · have hcs : ¬ s.title = res.title := fun hx => hc (ht.trans hx)
        simp [updateRowWith, hc, hcs, hw]

lemma applyUpdates_matched (llm_data : List BiasResult) :
    ∀ r s : Row, r.title = s.title → r.title ∈ llm_data.map (fun d => d.title) →
      (applyUpdates llm_data r).bias = (applyUpdates llm_data s).bias ∧
      (applyUpdates llm_data r).rewritten_article =
        (applyUpdates llm_data s).rewritten_article := by
  induction llm_data with
  | nil => intro r s _ hm; cases hm
  | cons res rest ih =>
    intro r s ht hm
    show (applyUpdates rest (updateRowWith res r)).bias = _ ∧ _
    by_cases hc : r.title = res.title
    · refine applyUpdates_congr rest (updateRowWith res r) (updateRowWith res s)
        ?_ ?_ ?_
      · rw [updateRowWith_title, updateRowWith_title, ht]
      · simp [updateRowWith, hc, ht.symm.trans hc]
      · simp [updateRowWith, hc, ht.symm.trans hc]
    · have hm2 : r.title ∈ rest.map (fun d => d.title) := by
        rw [List.map_cons, List.mem_cons] at hm
        exact hm.resolve_left hc
      refine ih (updateRowWith res r) (updateRowWith res s) ?_ ?_
      · rw [updateRowWith_title, updateRowWith_title, ht]
      · rw [updateRowWith_title]
        exact hm2

lemma foldl_map_updates (llm_data : List BiasResult) :
    ∀ rows : List Row,
      llm_data.foldl (fun rs res => rs.map (updateRowWith res)) rows =
        rows.map (applyUpdates llm_data) := by
  induction llm_data with
  | nil => intro rows; exact (List.map_id' rows).symm
  | cons res rest ih =>
    intro rows
    show rest.foldl _ (rows.map (updateRowWith res)) = _
    rw [ih, List.map_map]
    rfl

/-- C9: the write-back is positionally a per-row map; the per-row effect
preserves every column other than `bias` and `rewritten_article`; a row whose
title matches a result's title gets exactly those two columns set; a row
whose title matches no result is entirely unchanged; and two stored rows
sharing a title receive the same `bias` and `rewritten_article` values. -/
theorem c9_add_bias_frame_effect (db : NewsDB) (llm_data : List BiasResult) :
    (add_bias db llm_data).rows = db.rows.map (applyUpdates llm_data) ∧
    (∀ r : Row, sameFrame (applyUpdates llm_data r) r) ∧
    (∀ (res : BiasResult) (r : Row), r.title = res.title →
      updateRowWith res r =
        { r with bias := some res.bias,
                 rewritten_article := some res.rewritten_article }) ∧
    (∀ r : Row, r.title ∉ llm_data.map (fun d => d.title) →
      applyUpdates llm_data r = r) ∧
    (∀ r s : Row, r.title = s.title → r.title ∈ llm_data.map (fun d => d.title) →
      (applyUpdates llm_data r).bias = (applyUpdates llm_data s).bias ∧
      (applyUpdates llm_data r).rewritten_article =
        (applyUpdates llm_data s).rewritten_article) :=
  ⟨foldl_map_updates llm_data db.rows,
   applyUpdates_sameFrame llm_data,
   fun res r h => by simp [updateRowWith, h],
   applyUpdates_not_matched llm_data,
   applyUpdates_matched llm_data⟩

/-- Two stored rows sharing the title targeted by the result record, and a
third row with a different title. -/
def rowA : Row :=
  ⟨0, "Shared Title", "src1", "2024-01-01", "u1", "body one", "cat",
   none, none, "hash-a", 0⟩

/-- Second row with the shared title but different body and hash. -/
def rowB : Row :=
  ⟨1, "Shared Title", "src2", "2024-01-02", "u2", "body two", "cat",
   none, none, "hash-b", 1⟩

/-- A row whose title matches no write-back result. -/
def rowC : Row :=
  ⟨2, "Other Title", "src3", "2024-01-03", "u3", "body three", "cat",
   none, none, "hash-c", 2⟩

/-- A concrete write-back record. -/
def resW : BiasResult := ⟨"Shared Title", "analysis text", "rewritten text"⟩

/-- Witness for C9: the matching row gets exactly the two analysis columns
set, the non-matching row is untouched, and both title-sharing rows receive
the same bias value. -/
theorem c9_add_bias_frame_effect_witness :
    updateRowWith resW rowA =
      { rowA with bias := some "analysis text",
                  rewritten_article := some "rewritten text" } ∧
    applyUpdates [resW] rowC = rowC ∧
    (applyUpdates [resW] rowA).bias = (applyUpdates [resW] rowB).bias :=
  ⟨(c9_add_bias_frame_effect ⟨[rowA, rowB, rowC], 3⟩ [resW]).2.2.1 resW rowA rfl,
   (c9_add_bias_frame_effect ⟨[rowA, rowB, rowC], 3⟩ [resW]).2.2.2.1 rowC (by decide),
   ((c9_add_bias_frame_effect ⟨[rowA, rowB, rowC], 3⟩ [resW]).2.2.2.2 rowA rowB
      rfl (by decide)).1⟩

/-- C3: inserting an article whose content digest is already stored leaves
the table unchanged and counts zero; inserting a fresh article and then any
article with the same title and body across a second call counts 1 + 0, not
2; and the number of distinct content hashes never exceeds the row count. -/
theorem c3_add_news_content_dedup (md5 : String → String) (db : NewsDB)
    (a b : Article) :
    (hashExists db (generate_content_hash md5 a) = true →
      add_news md5 db [a] = (db, 0)) ∧
    (hashExists db (generate_content_hash md5 a) = false →
      a.title = b.title → a.body = b.body →
      (add_news md5 db [a]).2 = 1 ∧
      add_news md5 (add_news md5 db [a]).1 [b] = ((add_news md5 db [a]).1, 0)) ∧
    (∀ rows : List Row,
      ((rows.map (fun r => r.content_hash)).dedup).length ≤ rows.length) := by
  refine ⟨fun h => ?_, fun h ht hb => ?_, fun rows => ?_⟩
  · simp [add_news, h]
  · have hb2 : generate_content_hash md5 b = generate_content_hash md5 a := by
      unfold generate_content_hash
      rw [ht, hb]
    have h1 : add_news md5 db [a] =
        (insertRow db a (generate_content_hash md5 a), 1) := by
      simp [add_news, h]
    refine ⟨by rw [h1], ?_⟩
    rw [h1]
    have hex : hashExists (insertRow db a (generate_content_hash md5 a))
        (generate_content_hash md5 b) = true := by
      simp [hashExists, insertRow, hb2]
    simp [add_news, hex]
  · calc ((rows.map (fun r => r.content_hash)).dedup).length
        ≤ (rows.map (fun r => r.content_hash)).length :=
          (List.dedup_sublist _).length_le
    _ = rows.length := List.length_map _ _

/-- A concrete incoming article. -/
def articleW : Article := ⟨"T", "s", "2024-01-01", "u", "B", "c"⟩

/-- A stored row already holding `articleW`'s content digest (under the
identity digest oracle, the digest of title "T" and body "B" is "TB"). -/
def rowDup : Row := ⟨0, "T", "s", "2024-01-01", "u", "B", "c", none, none, "TB", 0⟩

/-- Witness for C3: a duplicate insert is a no-op counting zero; a fresh
insert then a repeat counts 1 then 0; distinct hashes do not exceed rows. -/
theorem c3_add_news_content_dedup_witness :
    add_news (fun s => s) ⟨[rowDup], 1⟩ [articleW] = (⟨[rowDup], 1⟩, 0) ∧
    (add_news (fun s => s) ⟨[], 0⟩ [articleW]).2 = 1 ∧
    add_news (fun s => s) (add_news (fun s => s) ⟨[], 0⟩ [articleW]).1 [articleW] =
      ((add_news (fun s => s) ⟨[], 0⟩ [articleW]).1, 0) ∧
    (([rowDup].map (fun r => r.content_hash)).dedup).length ≤ [rowDup].length :=
  ⟨(c3_add_news_content_dedup (fun s => s) ⟨[rowDup], 1⟩ articleW articleW).1
      (by decide),
   ((c3_add_news_content_dedup (fun s => s) ⟨[], 0⟩ articleW articleW).2.1
      (by decide) rfl rfl).1,
   ((c3_add_news_content_dedup (fun s => s) ⟨[], 0⟩ articleW articleW).2.1
      (by decide) rfl rfl).2,
   (c3_add_news_content_dedup (fun s => s) ⟨[], 0⟩ articleW articleW).2.2 [rowDup]⟩

/-- C7: the unprocessed-articles selection returns at most `limit` rows (and
projected records), every selected row has a NULL `bias` column, and when the
store's rows carry strictly increasing insertion timestamps the selection is
ordered most-recently-inserted first (strictly decreasing `created_at`). -/
theorem c7_select_unprocessed_spec (db : NewsDB) (limit : Nat) :
    (select_rows_for_llm db limit true).length ≤ limit ∧
    (prepare_data_for_llm db limit true).length ≤ limit ∧
    (∀ r ∈ select_rows_for_llm db limit true, r.bias = none) ∧
    (db.rows.Pairwise (fun r s => r.created_at < s.created_at) →
      (select_rows_for_llm db limit true).Pairwise
        (fun r s => s.created_at < r.created_at)) := by
  have hlen : (select_rows_for_llm db limit true).length ≤ limit := by
    show (((db.rows.reverse).filter (fun r => r.bias.isNone)).take limit).length ≤ limit
    rw [List.length_take]
    exact min_le_left _ _
  refine ⟨hlen, ?_, ?_, fun hpw => ?_⟩
  · show ((select_rows_for_llm db limit true).map (fun r => (r.title, r.body))).length ≤ limit
    rw [List.length_map]
    exact hlen
  · intro r hr
    have hr2 : r ∈ (db.rows.reverse).filter (fun r => r.bias.isNone) :=
      List.take_subset _ _ hr
    exact Option.isNone_iff_eq_none.mp (List.mem_filter.mp hr2).2
  · have h1 : (db.rows.reverse).Pairwise (fun r s => s.created_at < r.created_at) :=
      (List.pairwise_reverse).mpr hpw
    have h2 : List.Sublist (select_rows_for_llm db limit true) db.rows.reverse :=
      (List.take_sublist _ _).trans (List.filter_sublist _)
    exact h1.sublist h2

/-- An unprocessed row inserted first. -/
def rowP : Row := ⟨0, "t0", "s", "2024-01-01", "u0", "b0", "c", none, none, "h0", 0⟩

/-- A processed row (non-NULL `bias`) inserted second. -/
def rowQ : Row :=
  ⟨1, "t1", "s", "2024-01-02", "u1", "b1", "c", some "done", some "rw", "h1", 1⟩

/-- An unprocessed row inserted last. -/
def rowR : Row := ⟨2, "t2", "s", "2024-01-03", "u2", "b2", "c", none, none, "h2", 2⟩

/-- Witness for C7 on a three-row store: the selection obeys the limit, the
selected row `rowR` is unprocessed, and the selection is newest-first. -/
theorem c7_select_unprocessed_spec_witness :
    (select_rows_for_llm ⟨[rowP, rowQ, rowR], 3⟩ 2 true).length ≤ 2 ∧
    rowR.bias = none ∧
    (select_rows_for_llm ⟨[rowP, rowQ, rowR], 3⟩ 2 true).Pairwise
      (fun r s => s.created_at < r.created_at) :=
  ⟨(c7_select_unprocessed_spec ⟨[rowP, rowQ, rowR], 3⟩ 2).1,
   (c7_select_unprocessed_spec ⟨[rowP, rowQ, rowR], 3⟩ 2).2.2.1 rowR (by decide),
   (c7_select_unprocessed_spec ⟨[rowP, rowQ, rowR], 3⟩ 2).2.2.2 (by decide)⟩

end HalfTruths
